import Mathlib

/-!
# Device indicator menu of kdeconnect-kde

A shallow embedding of `indicator/deviceindicator.cpp`: the `BatteryAction`
label logic, the `DeviceIndicator` constructor with its capability callbacks
and its trigger handlers, and the properties of the device menu that follow
from them.

Qt objects become records, pointers captured by a lambda become the record
field of the object they point to, every slot or lambda of the source becomes a
function from state to state, and the D-Bus side of the program becomes an
explicit log of the calls issued plus the set of live proxy objects.
-/

namespace KdeConnect

/-! ## KLocalizedString: `i18n` in the untranslated locale -/

/-- Scanner position of the placeholder substitution of `i18n`: inside plain
text, right after a percent sign, or inside the digits of a placeholder. -/
inductive Scan where
  | text
  | percent
  | index (n : Nat)
  deriving DecidableEq, Repr

/-- The argument a placeholder `%n` stands for (placeholders count from 1);
a placeholder without an argument is left empty. -/
def placeholderArg (args : List String) (n : Nat) : List Char :=
  match n with
  | 0 => []
  | k + 1 => (args.getD k "").data

/-- Placeholder substitution of an untranslated `i18n` message: each `%n`
(a percent sign followed by decimal digits, the first of them not 0) is
replaced by the n-th argument, every other character, a lone percent sign
included, is copied. -/
def substitute (args : List String) : Scan → List Char → List Char
  | .text, [] => []
  | .percent, [] => [ '%']
  | .index n, [] => placeholderArg args n
  | .text, c :: cs =>
      if c = '%' then substitute args .percent cs
      else c :: substitute args .text cs
  | .percent, c :: cs =>
      if c.isDigit && c != '0' then substitute args (.index (c.toNat - 48)) cs
      else if c = '%' then '%' :: substitute args .percent cs
      else '%' :: c :: substitute args .text cs
  | .index n, c :: cs =>
      if c.isDigit then substitute args (.index (10 * n + (c.toNat - 48))) cs
      else if c = '%' then placeholderArg args n ++ substitute args .percent cs
      else placeholderArg args n ++ c :: substitute args .text cs

/-- The call `i18n(text, args...)` with no translation catalogue loaded. -/
def i18n (text : String) (args : List String) : String :=
  String.mk (substitute args .text text.data)

/-- Decimal rendering of an `int` argument of `i18n` (C locale, no digit
grouping). -/
def formatInt (n : Int) : String := toString n

/-! ## BatteryAction -/

/-- The `BatteryAction` object: the two members `m_charge` and `m_charging`
with their in-class initialisers, and the `QAction` properties the class
writes (`text`, `icon`, `visible`). `m_batteryIface` is the address of the
battery proxy created by the constructor. -/
structure BatteryAction where
  m_batteryIface : Nat
  m_charge : Int := -1
  m_charging : Bool := false
  text : String := ""
  icon : String := ""
  visible : Bool := true
  deriving DecidableEq, Repr

/-- The method `BatteryAction::update()`. -/
def BatteryAction.update (a : BatteryAction) : BatteryAction :=
  if a.m_charge < 0 then
    { a with text := i18n "No Battery" [] }
  else if a.m_charging then
    { a with text := i18n "Battery: %1% (Charging)" [formatInt a.m_charge] }
  else
    { a with text := i18n "Battery: %1%" [formatInt a.m_charge] }

/-- The slot `BatteryAction::setCharge(int)`. -/
def BatteryAction.setCharge (a : BatteryAction) (charge : Int) : BatteryAction :=
  BatteryAction.update { a with m_charge := charge }

/-- The slot `BatteryAction::setCharging(bool)`. -/
def BatteryAction.setCharging (a : BatteryAction) (charging : Bool) : BatteryAction :=
  BatteryAction.update { a with m_charging := charging }

/-- The signals and replies that reach a `BatteryAction` after its
construction: the replies of the two initial reads `charge()` and
`isCharging()`, handed to the lambdas of lines 37-38, and the two change
signals connected at lines 40-41. -/
inductive BatteryEvent where
  | chargeReply (charge : Int)
  | isChargingReply (charging : Bool)
  | chargeChanged (charge : Int)
  | stateChanged (charging : Bool)
  deriving DecidableEq, Repr

/-- Delivery of one event to the `BatteryAction`: each of the four
connections ends in `setCharge` or `setCharging`. -/
def BatteryAction.handle (a : BatteryAction) : BatteryEvent → BatteryAction
  | .chargeReply charge => a.setCharge charge
  | .isChargingReply charging => a.setCharging charging
  | .chargeChanged charge => a.setCharge charge
  | .stateChanged charging => a.setCharging charging

/-- Delivery of a sequence of events, first to last. -/
def BatteryAction.handleAll (a : BatteryAction) (events : List BatteryEvent) : BatteryAction :=
  events.foldl BatteryAction.handle a

/-- The three-way label written out: what the menu shows for a charge and a
charging flag. -/
def batteryLabel (charge : Int) (charging : Bool) : String :=
  if charge < 0 then "No Battery"
  else if charging then "Battery: " ++ toString charge.toNat ++ "% (Charging)"
  else "Battery: " ++ toString charge.toNat ++ "%"

/-- An event that carries the charging flag, not the charge. -/
def BatteryEvent.isFlag : BatteryEvent → Bool
  | .isChargingReply _ => true
  | .stateChanged _ => true
  | _ => false

/-- The label agrees with the two members. -/
def BatteryAction.InSync (a : BatteryAction) : Prop :=
  a.text = batteryLabel a.m_charge a.m_charging

/-! ## QJson values -/

/-- A `QJsonValue`. A number keeps its decimal mantissa and exponent; no
function of the menu looks at it. -/
inductive QJsonValue where
  | null
  | bool (b : Bool)
  | double (mantissa : Int) (exponent : Int)
  | string (s : String)
  | array (items : List QJsonValue)
  | object (members : List (String × QJsonValue))
  | undefined

/-- A `QJsonObject`, as the sequence of members that an iteration from
`constBegin()` to `constEnd()` visits. -/
abbrev QJsonObject := List (String × QJsonValue)

/-- The result of `QJsonDocument::fromJson`: a null document when the bytes
are not JSON, otherwise an array or an object. -/
inductive QJsonDocument where
  | null
  | array (items : List QJsonValue)
  | object (members : QJsonObject)

/-- The accessor `QJsonDocument::object()`: the empty object unless the
document holds an object. -/
def QJsonDocument.toObject : QJsonDocument → QJsonObject
  | .object members => members
  | _ => []

/-- The accessor `QJsonValue::toObject()`: the empty object unless the value
is an object. -/
def QJsonValue.toObject : QJsonValue → QJsonObject
  | .object members => members
  | _ => []

/-- The accessor `QJsonObject::value(key)`: `Undefined` when the key is
absent. -/
def QJsonObject.value (o : QJsonObject) (key : String) : QJsonValue :=
  match o.find? (fun m => m.1 == key) with
  | some m => m.2
  | none => .undefined

/-- The accessor `QJsonValue::toString()`: the null string unless the value
is a string. -/
def QJsonValue.toQString : QJsonValue → String
  | .string s => s
  | _ => ""

/-! ## The D-Bus side -/

/-- The generated proxy classes the menu instantiates. -/
inductive ProxyClass where
  | DeviceBatteryDbusInterface
  | RemoteCommandsDbusInterface
  | SftpDbusInterface
  | FindMyPhoneDeviceDbusInterface
  deriving DecidableEq, Repr

/-- A live proxy object: its address, its class and the device id it was
constructed with. -/
structure Proxy where
  addr : Nat
  cls : ProxyClass
  deviceId : String
  deriving DecidableEq, Repr

/-- A `QDBusMessage` method call. -/
structure QDBusMessage where
  service : String
  path : String
  iface : String
  method : String
  arguments : List String := []
  deriving DecidableEq, Repr

/-- One call put on the bus: through a proxy object (identified by its
address), or as a hand-built message on the session bus. -/
inductive BusCall where
  | viaProxy (proxy : Nat) (method : String) (arguments : List String)
  | message (msg : QDBusMessage)
  deriving DecidableEq, Repr

/-- Everything outside the menu object that the menu code acts on: the
allocator of proxy objects, the proxies alive, the proxies handed to
`deleteLater()`, the calls issued so far and the processes started. -/
structure Bus where
  nextAddr : Nat := 0
  proxies : List Proxy := []
  deferredDelete : List Nat := []
  calls : List BusCall := []
  launched : List (String × List String) := []
  deriving DecidableEq, Repr

/-- The expression `new C(deviceId, parent)` for a proxy class `C`: the object
gets an address no object had before. -/
def Bus.newProxy (b : Bus) (cls : ProxyClass) (deviceId : String) : Nat × Bus :=
  (b.nextAddr,
   { b with nextAddr := b.nextAddr + 1,
            proxies := b.proxies ++ [{ addr := b.nextAddr, cls := cls, deviceId := deviceId }] })

/-- A method call through the proxy at `proxy`. -/
def Bus.call (b : Bus) (proxy : Nat) (method : String) (arguments : List String) : Bus :=
  { b with calls := b.calls ++ [.viaProxy proxy method arguments] }

/-- The call `DbusHelper::sessionBus().call(msg)`. -/
def Bus.send (b : Bus) (msg : QDBusMessage) : Bus :=
  { b with calls := b.calls ++ [.message msg] }

/-- The call `obj->deleteLater()`. -/
def Bus.deleteLater (b : Bus) (addr : Nat) : Bus :=
  { b with deferredDelete := b.deferredDelete ++ [addr] }

/-- Return of control to the event loop: every object handed to
`deleteLater()` is destroyed. -/
def Bus.processDeferredDeletes (b : Bus) : Bus :=
  { b with proxies := b.proxies.filter (fun p => !b.deferredDelete.contains p.addr),
           deferredDelete := [] }

/-- The call `QProcess::startDetached(program, arguments)`. -/
def Bus.startDetached (b : Bus) (program : String) (arguments : List String) : Bus :=
  { b with launched := b.launched ++ [(program, arguments)] }

/-! ## The device menu -/

/-- The peer handle `DeviceDbusInterface* device` the menu is built for: the
address of the proxy and the three properties the constructor reads. -/
structure DeviceDbusInterface where
  addr : Nat
  id : String
  name : String
  iconName : String
  deriving DecidableEq, Repr

/-- What is connected to the `triggered` signal of an action: one
constructor per `connect` of the `DeviceIndicator` constructor. -/
inductive Slot where
  | unconnected
  | browse
  | findDevice
  | sendFile
  | smsapp
  | editCommands
  | triggerCommand (key : String)
  deriving DecidableEq, Repr

/-- A `QAction` of the menu: label, icon name, visibility (a new action is
visible) and the slot connected to `triggered`. -/
structure QAction where
  text : String
  icon : String := ""
  visible : Bool := true
  triggered : Slot := .unconnected
  deriving DecidableEq, Repr

/-- The `DeviceIndicator` menu. Besides the two members of the class it holds
the objects that the local variables of the constructor point to and that the
lambdas capture: `battery`, `browse`, `findDevice`, `sendFile`, `smsapp`
(absent when the SMS program is not installed), `menuAction`, and the actions
of `remoteCommandsMenu` in the order they were added. -/
structure DeviceIndicator where
  title : String
  icon : String
  m_device : DeviceDbusInterface
  m_remoteCommandsInterface : Nat
  battery : BatteryAction
  browse : QAction
  findDevice : QAction
  sendFile : QAction
  smsapp : Option QAction
  menuAction : QAction
  remoteCommandsMenu : List QAction
  deriving DecidableEq, Repr

/-- The program state: the menu and the D-Bus side. -/
structure State where
  menu : DeviceIndicator
  bus : Bus
  deriving DecidableEq, Repr

/-- The constructor `BatteryAction::BatteryAction(device)`: creates the
battery proxy, starts the two initial reads, sets the icon and calls
`update()`. -/
def BatteryAction.create (device : DeviceDbusInterface) (b : Bus) : BatteryAction × Bus :=
  let (iface, b) := b.newProxy .DeviceBatteryDbusInterface device.id
  let b := b.call iface "charge" []
  let b := b.call iface "isCharging" []
  (BatteryAction.update { m_batteryIface := iface, icon := "battery" }, b)

/-- The constructor `DeviceIndicator::DeviceIndicator(device)`.
`smsExecutable` is the result of
`QStandardPaths::findExecutable("kdeconnect-sms")`. -/
def DeviceIndicator.create (device : DeviceDbusInterface) (smsExecutable : String) (b : Bus) : State :=
  let (remote, b) := b.newProxy .RemoteCommandsDbusInterface device.id
  let (battery, b) := BatteryAction.create device b
  let b := b.call device.addr "hasPlugin" ["kdeconnect_battery"]
  let browse : QAction :=
    { text := i18n "Browse device" [], icon := "document-open-folder", triggered := .browse }
  let b := b.call device.addr "hasPlugin" ["kdeconnect_sftp"]
  let findDevice : QAction :=
    { text := i18n "Ring device" [], icon := "irc-voice", triggered := .findDevice }
  let b := b.call device.addr "hasPlugin" ["kdeconnect_findmyphone"]
  let sendFile : QAction :=
    { text := i18n "Send file" [], icon := "document-share", triggered := .sendFile }
  let b := b.call device.addr "hasPlugin" ["kdeconnect_share"]
  let (smsapp, b) : Option QAction × Bus :=
    if !smsExecutable.isEmpty then
      (some { text := i18n "SMS Messages..." [], icon := "message-new", triggered := .smsapp },
       b.call device.addr "hasPlugin" ["kdeconnect_sms"])
    else (none, b)
  let menuAction : QAction := { text := i18n "Run command" [] }
  let addCommandAction : QAction :=
    { text := i18n "Add commands" [], icon := "list-add", triggered := .editCommands }
  let b := b.call device.addr "hasPlugin" ["kdeconnect_remotecommands"]
  { menu :=
      { title := device.name, icon := device.iconName, m_device := device,
        m_remoteCommandsInterface := remote, battery := battery, browse := browse,
        findDevice := findDevice, sendFile := sendFile, smsapp := smsapp,
        menuAction := menuAction, remoteCommandsMenu := [addCommandAction] },
    bus := b }

/-! ### Capability callbacks -/

/-- The loop of lines 139-146: one action is appended to `remoteCommandsMenu`
per member of the object, labelled with the `name` field of the member (read
through `toObject()`, `value()` and `toString()`) and connected to
`triggerCommand(key)`. -/
def addCommandActions : QJsonObject → List QAction → List QAction
  | [], actions => actions
  | it :: rest, actions =>
      let cont := it.2.toObject
      let key := it.1
      let action : QAction :=
        { text := (cont.value "name").toQString, triggered := .triggerCommand key }
      addCommandActions rest (actions ++ [action])

/-- The lambda of lines 131-147, run with the availability of
`kdeconnect_remotecommands`; `commands` is the document that the bytes
returned by `m_remoteCommandsInterface->commands()` parse to at that
moment. -/
def remoteCommandsAvailable (available : Bool) (commands : QJsonDocument) (s : State) : State :=
  let s : State :=
    { s with menu := { s.menu with menuAction := { s.menu.menuAction with visible := available } } }
  if !available then s
  else
    let s : State := { s with bus := s.bus.call s.menu.m_remoteCommandsInterface "commands" [] }
    let cmds := commands.toObject
    { s with menu :=
        { s.menu with remoteCommandsMenu := addCommandActions cmds s.menu.remoteCommandsMenu } }

/-- Delivery of the reply of `device->hasPlugin(pluginId)` to the lambda that
`setWhenAvailable` paired with that call (lines 83-85, 93, 101, 114, 122,
131-147). A plugin id no call was made for, and `kdeconnect_sms` when the
`smsapp` action was not created, has no lambda. -/
def hasPluginReply (pluginId : String) (available : Bool) (commands : QJsonDocument)
    (s : State) : State :=
  if pluginId = "kdeconnect_battery" then
    { s with menu := { s.menu with battery := { s.menu.battery with visible := available } } }
  else if pluginId = "kdeconnect_sftp" then
    { s with menu := { s.menu with browse := { s.menu.browse with visible := available } } }
  else if pluginId = "kdeconnect_findmyphone" then
    { s with menu := { s.menu with findDevice := { s.menu.findDevice with visible := available } } }
  else if pluginId = "kdeconnect_share" then
    { s with menu := { s.menu with sendFile := { s.menu.sendFile with visible := available } } }
  else if pluginId = "kdeconnect_sms" then
    match s.menu.smsapp with
    | some smsapp =>
        { s with menu := { s.menu with smsapp := some { smsapp with visible := available } } }
    | none => s
  else if pluginId = "kdeconnect_remotecommands" then
    remoteCommandsAvailable available commands s
  else s

/-- One availability event: the flag, and the command document the peer would
return if asked at that moment. -/
structure GateEvent where
  available : Bool
  commands : QJsonDocument

/-- Delivery of a sequence of availability events to the callback of one
plugin id, first to last. -/
def deliverAll (pluginId : String) (events : List GateEvent) (s : State) : State :=
  events.foldl (fun st e => hasPluginReply pluginId e.available e.commands st) s

/-! ### Trigger handlers -/

/-- The lambda of lines 88-92, connected to `browse`. -/
def browseTriggered (s : State) : State :=
  let (sftpIface, b) := s.bus.newProxy .SftpDbusInterface s.menu.m_device.id
  let b := b.call sftpIface "startBrowsing" []
  let b := b.deleteLater sftpIface
  { s with bus := b }

/-- The lambda of lines 96-100, connected to `findDevice`. -/
def findDeviceTriggered (s : State) : State :=
  let (iface, b) := s.bus.newProxy .FindMyPhoneDeviceDbusInterface s.menu.m_device.id
  let b := b.call iface "ring" []
  let b := b.deleteLater iface
  { s with bus := b }

/-- The lambda of lines 104-112, connected to `sendFile`; `url` is what
`QFileDialog::getOpenFileUrl` returned, as the text `url.toString()` gives
(the empty URL is the empty text). -/
def sendFileTriggered (url : String) (s : State) : State :=
  if url.isEmpty then s
  else
    let msg : QDBusMessage :=
      { service := "org.kde.kdeconnect",
        path := "/modules/kdeconnect/devices/" ++ s.menu.m_device.id ++ "/share",
        iface := "org.kde.kdeconnect.device.share",
        method := "shareUrl",
        arguments := [url] }
    { s with bus := s.bus.send msg }

/-- The lambda of lines 119-121, connected to `smsapp`. -/
def smsappTriggered (s : State) : State :=
  { s with bus := s.bus.startDetached "kdeconnect-sms" ["--device", s.menu.m_device.id] }

/-- The slot `RemoteCommandsDbusInterface::editCommands` of the member proxy,
connected to `addCommandAction` at line 128. -/
def editCommandsTriggered (s : State) : State :=
  { s with bus := s.bus.call s.menu.m_remoteCommandsInterface "editCommands" [] }

/-- The lambda of lines 143-145, connected to the action of one command. -/
def commandTriggered (key : String) (s : State) : State :=
  { s with bus := s.bus.call s.menu.m_remoteCommandsInterface "triggerCommand" [key] }

/-- The code a slot runs; `url` is the answer of the file picker, asked only
by the send-file slot. -/
def Slot.run (slot : Slot) (url : String) (s : State) : State :=
  match slot with
  | .unconnected => s
  | .browse => browseTriggered s
  | .findDevice => findDeviceTriggered s
  | .sendFile => sendFileTriggered url s
  | .smsapp => smsappTriggered s
  | .editCommands => editCommandsTriggered s
  | .triggerCommand key => commandTriggered key s

/-- One activation of an action: the connected slot runs, then control
returns to the event loop, which destroys what was handed to
`deleteLater()`. -/
def activate (slot : Slot) (url : String) (s : State) : State :=
  let s := slot.run url s
  { s with bus := s.bus.processDeferredDeletes }

/-- Activation of the action at position `i` of `remoteCommandsMenu`. -/
def triggerEntry (i : Nat) (s : State) : State :=
  match s.menu.remoteCommandsMenu.get? i with
  | some action => activate action.triggered "" s
  | none => s

/-! ### Reading the menu -/

/-- The actions of the device menu itself, in the order of their
`addAction`. -/
inductive MenuItem where
  | battery
  | browse
  | findDevice
  | sendFile
  | smsapp
  | menuAction
  deriving DecidableEq, Repr

/-- Visibility of a menu action; `none` when the action does not exist. -/
def DeviceIndicator.visibleOf (m : DeviceIndicator) : MenuItem → Option Bool
  | .battery => some m.battery.visible
  | .browse => some m.browse.visible
  | .findDevice => some m.findDevice.visible
  | .sendFile => some m.sendFile.visible
  | .smsapp => m.smsapp.map (fun a => a.visible)
  | .menuAction => some m.menuAction.visible

/-- Label of a menu action; `none` when the action does not exist. -/
def DeviceIndicator.textOf (m : DeviceIndicator) : MenuItem → Option String
  | .battery => some m.battery.text
  | .browse => some m.browse.text
  | .findDevice => some m.findDevice.text
  | .sendFile => some m.sendFile.text
  | .smsapp => m.smsapp.map (fun a => a.text)
  | .menuAction => some m.menuAction.text

/-- The plugin id that governs each menu action, as the specification lists
them. -/
def governingPlugin : MenuItem → String
  | .battery => "kdeconnect_battery"
  | .browse => "kdeconnect_sftp"
  | .findDevice => "kdeconnect_findmyphone"
  | .sendFile => "kdeconnect_share"
  | .smsapp => "kdeconnect_sms"
  | .menuAction => "kdeconnect_remotecommands"

/-- A command record as the snapshot format describes it: an object with a
string `name` field. Gives the name, or `none` for a malformed record. -/
def recordName : QJsonValue → Option String
  | .object members =>
      match members.find? (fun m => m.1 == "name") with
      | some (_, .string name) => some name
      | _ => none
  | _ => none

/-- The action the loop of lines 139-146 creates for one member of the
snapshot. -/
def commandAction (it : String × QJsonValue) : QAction :=
  { text := (it.2.toObject.value "name").toQString, triggered := .triggerCommand it.1 }

/-- The command actions a sequence of availability events appends: the
actions of the snapshot of every event with `available = true`, in order. -/
def commandsAdded : List GateEvent → List QAction
  | [] => []
  | e :: es =>
      (if e.available then e.commands.toObject.map commandAction else []) ++ commandsAdded es

/-- The state between two activations: nothing waits for deletion and every
live proxy has an address the allocator already passed. -/
def Bus.AtRest (b : Bus) : Prop :=
  b.deferredDelete = [] ∧ ∀ q ∈ b.proxies, q.addr < b.nextAddr

/-- A fresh transient proxy, as the specification describes an activation: a
proxy at an address no live proxy has is created for the device id, the
activation adds exactly one call to the log, made through that proxy, and the
proxy is no longer alive afterwards. -/
def FreshProxyActivation (slot : Slot) (s : State) : Prop :=
  ∃ p cls method arguments,
    (∀ q ∈ s.bus.proxies, q.addr ≠ p) ∧
    ({ addr := p, cls := cls, deviceId := s.menu.m_device.id } : Proxy)
      ∈ (slot.run "" s).bus.proxies ∧
    (activate slot "" s).bus.calls = s.bus.calls ++ [.viaProxy p method arguments] ∧
    (∀ q ∈ (activate slot "" s).bus.proxies, q.addr ≠ p)

/-- The plugin ids a call log asks `hasPlugin` for, in the order of the
calls. -/
def awaitedPlugins (calls : List BusCall) : List String :=
  calls.filterMap (fun c => match c with
    | .viaProxy _ method [pluginId] => if method = "hasPlugin" then some pluginId else none
    | _ => none)

/-- Modelled from the spec: the helper `setWhenAvailable(pending, func,
parent)` of `interfaces/dbusinterfaces.h`, which is not among the sources.
It is the initial read of section 4.1: when the pending reply resolves it
"delivers the value to a registered callback exactly once". A change
notification reaches a slot only through a `connect` (lines 40-41 for the
battery), and the `DeviceIndicator` constructor has none that carries
availability, so the lambda given for a plugin id runs for the one reply of
its `hasPlugin` call and not again. A watched menu is the program state
together with the plugin ids whose reply is still awaited. -/
structure Watched where
  state : State
  pending : List String

/-- The menu right after its constructor: every `hasPlugin` call the
constructor made awaits its reply. -/
def Watched.create (device : DeviceDbusInterface) (smsExecutable : String) (b : Bus) : Watched :=
  { state := DeviceIndicator.create device smsExecutable b,
    pending :=
      awaitedPlugins ((DeviceIndicator.create device smsExecutable b).bus.calls.drop
        b.calls.length) }

/-- A device handle used for the concrete runs below. -/
def sampleDevice : DeviceDbusInterface :=
  { addr := 100, id := "a1b2c3", name := "Phone", iconName := "smartphone" }

/-- The snapshot of the example in the specification: key `k1`, name "Say Hi". -/
def sayHiSnapshot : QJsonDocument :=
  .object [("k1", .object [("name", .string "Say Hi")])]

/-- A snapshot with two malformed records (a number, and an object without
`name`) next to a well-formed one. -/
def mixedSnapshot : QJsonDocument :=
  .object [("bad", .double 5 0), ("k1", .object [("name", .string "Say Hi")]),
    ("nameless", .object [("command", .string "ls")])]

/-- The menu of `sampleDevice`, built on an empty bus without the SMS program,
after its command gate opened with `sayHiSnapshot`. -/
def openedSample : State :=
  hasPluginReply "kdeconnect_remotecommands" true sayHiSnapshot
    (DeviceIndicator.create sampleDevice "" {})

/-- The number of well-formed records of a snapshot. -/
def wellFormedCount (o : QJsonObject) : Nat :=
  o.countP (fun it => (recordName it.2).isSome)

/-! ## Battery label -/

theorem i18n_noBattery : i18n "No Battery" [] = "No Battery" := by
  rfl

theorem i18n_battery (n : String) : i18n "Battery: %1%" [n] = "Battery: " ++ n ++ "%" := by
  rfl

theorem i18n_batteryCharging (n : String) :
    i18n "Battery: %1% (Charging)" [n] = "Battery: " ++ n ++ "% (Charging)" := by
  rfl

theorem formatInt_of_nonneg (c : Int) (h : ¬ c < 0) : formatInt c = toString c.toNat := by
  cases c with
  | ofNat n => rfl
  | negSucc n => exact absurd (Int.negSucc_lt_zero n) h

theorem update_m_charge (a : BatteryAction) : a.update.m_charge = a.m_charge := by
  unfold BatteryAction.update
  split_ifs <;> rfl

theorem update_m_charging (a : BatteryAction) : a.update.m_charging = a.m_charging := by
  unfold BatteryAction.update
  split_ifs <;> rfl

theorem update_text (a : BatteryAction) :
    a.update.text = batteryLabel a.m_charge a.m_charging := by
  unfold BatteryAction.update batteryLabel
  by_cases h : a.m_charge < 0
  · simp only [h, if_true, i18n_noBattery]
  · cases hc : a.m_charging
    · simp [h, i18n_battery, formatInt_of_nonneg _ h]
    · simp [h, i18n_batteryCharging, formatInt_of_nonneg _ h]

theorem handle_inSync (a : BatteryAction) (e : BatteryEvent) : (a.handle e).InSync := by
  cases e <;>
    simp only [BatteryAction.handle, BatteryAction.setCharge, BatteryAction.setCharging,
      BatteryAction.InSync, update_text, update_m_charge, update_m_charging]

theorem handleAll_append (a : BatteryAction) (es fs : List BatteryEvent) :
    a.handleAll (es ++ fs) = (a.handleAll es).handleAll fs := by
  simp [BatteryAction.handleAll, List.foldl_append]

theorem handleAll_inSync (a : BatteryAction) (h : a.InSync) (events : List BatteryEvent) :
    (a.handleAll events).InSync := by
  induction events generalizing a with
  | nil => exact h
  | cons e es ih => exact ih (a.handle e) (handle_inSync a e)

theorem create_inSync (device : DeviceDbusInterface) (b : Bus) :
    (BatteryAction.create device b).1.InSync := by
  simp only [BatteryAction.create, BatteryAction.InSync, update_text, update_m_charge,
    update_m_charging]

theorem create_m_charge (device : DeviceDbusInterface) (b : Bus) :
    (BatteryAction.create device b).1.m_charge = -1 := by
  simp only [BatteryAction.create, update_m_charge]

theorem handleAll_flags_m_charge (a : BatteryAction) (events : List BatteryEvent)
    (h : ∀ e ∈ events, e.isFlag = true) : (a.handleAll events).m_charge = a.m_charge := by
  induction events generalizing a with
  | nil => rfl
  | cons e es ih =>
    have he : e.isFlag = true := h e (List.mem_cons_self e es)
    have hes : ∀ x ∈ es, x.isFlag = true := fun x hx => h x (List.mem_cons_of_mem e hx)
    have step : (a.handle e).m_charge = a.m_charge := by
      cases e <;>
        simp_all [BatteryEvent.isFlag, BatteryAction.handle, BatteryAction.setCharging,
          update_m_charge]
    show ((a.handle e).handleAll es).m_charge = a.m_charge
    rw [ih (a.handle e) hes, step]

theorem batteryLabel_neg (c : Int) (charging : Bool) (h : c < 0) :
    batteryLabel c charging = "No Battery" := by
  simp [batteryLabel, h]

/-- C1: after `update()` the text is "No Battery" when the charge is negative,
"Battery: N% (Charging)" when the charge is N >= 0 and the charging flag is
set, and "Battery: N%" when the charge is N >= 0 and the flag is clear; the
unknown charge -1 gives "No Battery", (57, false) gives "Battery: 57%" and
(57, true) gives "Battery: 57% (Charging)". -/
theorem battery_label_rendering (a : BatteryAction) :
    (a.m_charge < 0 → a.update.text = "No Battery") ∧
    (∀ n : Nat, a.m_charge = (n : Int) → a.m_charging = true →
      a.update.text = "Battery: " ++ toString n ++ "% (Charging)") ∧
    (∀ n : Nat, a.m_charge = (n : Int) → a.m_charging = false →
      a.update.text = "Battery: " ++ toString n ++ "%") ∧
    (BatteryAction.update { a with m_charge := -1 }).text = "No Battery" ∧
    (BatteryAction.update { a with m_charge := 57, m_charging := false }).text
      = "Battery: 57%" ∧
    (BatteryAction.update { a with m_charge := 57, m_charging := true }).text
      = "Battery: 57% (Charging)" := by
  refine ⟨?_, ?_, ?_, ?_, ?_, ?_⟩
  · intro h
    rw [update_text, batteryLabel_neg _ _ h]
  · intro n hn hc
    rw [update_text, hn, hc]
    simp [batteryLabel]
  · intro n hn hc
    rw [update_text, hn, hc]
    simp [batteryLabel]
  · rw [update_text]
    exact batteryLabel_neg (-1) _ (by decide)
  · rw [update_text]
    show batteryLabel 57 false = "Battery: 57%"
    decide
  · rw [update_text]
    show batteryLabel 57 true = "Battery: 57% (Charging)"
    decide

/-- Witness of C1 at charge 57 while charging. -/
theorem battery_label_rendering_witness :
    (BatteryAction.update { m_batteryIface := 1, m_charge := 57, m_charging := true }).text
      = "Battery: 57% (Charging)" :=
  (battery_label_rendering { m_batteryIface := 1, m_charge := 57, m_charging := true }).2.1
    57 rfl rfl

/-- C10: after construction and after every sequence of deliveries the text
is the three-way rendering of the current members; it is "No Battery" right
after construction, stays "No Battery" while only the charging flag is
delivered, and is "No Battery" again after any delivery of a negative charge,
whatever the flag. -/
theorem battery_label_in_sync (device : DeviceDbusInterface) (b : Bus)
    (events : List BatteryEvent) :
    ((BatteryAction.create device b).1.handleAll events).text
      = batteryLabel ((BatteryAction.create device b).1.handleAll events).m_charge
          ((BatteryAction.create device b).1.handleAll events).m_charging ∧
    (BatteryAction.create device b).1.text = "No Battery" ∧
    ((∀ e ∈ events, e.isFlag = true) →
      ((BatteryAction.create device b).1.handleAll events).text = "No Battery") ∧
    (∀ c : Int, c < 0 →
      ((BatteryAction.create device b).1.handleAll (events ++ [.chargeChanged c])).text
        = "No Battery" ∧
      ((BatteryAction.create device b).1.handleAll (events ++ [.chargeReply c])).text
        = "No Battery") := by
  refine ⟨handleAll_inSync _ (create_inSync device b) events, ?_, ?_, ?_⟩
  · rw [create_inSync device b, create_m_charge]
    exact batteryLabel_neg (-1) _ (by decide)
  · intro h
    rw [handleAll_inSync _ (create_inSync device b) events, handleAll_flags_m_charge _ _ h,
      create_m_charge]
    exact batteryLabel_neg (-1) _ (by decide)
  · intro c hc
    constructor
    · rw [handleAll_append]
      show (BatteryAction.update _).text = _
      rw [update_text]
      exact batteryLabel_neg c _ hc
    · rw [handleAll_append]
      show (BatteryAction.update _).text = _
      rw [update_text]
      exact batteryLabel_neg c _ hc

/-- Witness of C10: only the charging flag was delivered. -/
theorem battery_label_in_sync_witness :
    ((BatteryAction.create sampleDevice {}).1.handleAll
      [.isChargingReply true, .stateChanged false, .stateChanged true]).text = "No Battery" :=
  (battery_label_in_sync sampleDevice {}
    [.isChargingReply true, .stateChanged false, .stateChanged true]).2.2.1 (by decide)

/-- C5, as stated, fails: the change 80 is delivered, then the reply 57 of the
initial read; the member and the label show 57, not 80. The same for the flag:
the change `true`, then the reply `false`, leaves the flag clear. -/
theorem initial_reply_keeps_newer_counterexample :
    ((BatteryAction.create sampleDevice {}).1.handleAll
        [.chargeChanged 80, .chargeReply 57]).m_charge = 57 ∧
    ((BatteryAction.create sampleDevice {}).1.handleAll
        [.chargeChanged 80, .chargeReply 57]).m_charge ≠ 80 ∧
    ((BatteryAction.create sampleDevice {}).1.handleAll
        [.chargeChanged 80, .chargeReply 57]).text = "Battery: 57%" ∧
    ((BatteryAction.create sampleDevice {}).1.handleAll
        [.chargeChanged 80, .chargeReply 57]).text ≠ "Battery: 80%" ∧
    ((BatteryAction.create sampleDevice {}).1.handleAll
        [.chargeChanged 80, .stateChanged true, .isChargingReply false]).m_charging = false ∧
    ((BatteryAction.create sampleDevice {}).1.handleAll
        [.chargeChanged 80, .stateChanged true, .isChargingReply false]).text
      ≠ "Battery: 80% (Charging)" := by
  decide

/-- C5 amended: the delivery that comes last wins. When the change `w` is
delivered before the reply `v` of the initial read, the member holds `v` and
the label renders `v`; the same for the charging flag. -/
theorem initial_reply_last_delivery_wins (a : BatteryAction) (v w : Int) (f g : Bool) :
    (a.handleAll [.chargeChanged w, .chargeReply v]).m_charge = v ∧
    (a.handleAll [.chargeChanged w, .chargeReply v]).text = batteryLabel v a.m_charging ∧
    (a.handleAll [.stateChanged g, .isChargingReply f]).m_charging = f ∧
    (a.handleAll [.stateChanged g, .isChargingReply f]).text = batteryLabel a.m_charge f := by
  simp only [BatteryAction.handleAll, List.foldl, BatteryAction.handle, BatteryAction.setCharge,
    BatteryAction.setCharging, update_text, update_m_charge, update_m_charging, and_self]

/-! ## Capability callbacks -/

theorem addCommandActions_eq (cmds : QJsonObject) (actions : List QAction) :
    addCommandActions cmds actions = actions ++ cmds.map commandAction := by
  induction cmds generalizing actions with
  | nil => simp [addCommandActions]
  | cons it rest ih =>
    simp [addCommandActions, ih, commandAction]

theorem remoteCommandsAvailable_fields (b : Bool) (cmds : QJsonDocument) (s : State) :
    (remoteCommandsAvailable b cmds s).menu.battery = s.menu.battery ∧
    (remoteCommandsAvailable b cmds s).menu.browse = s.menu.browse ∧
    (remoteCommandsAvailable b cmds s).menu.findDevice = s.menu.findDevice ∧
    (remoteCommandsAvailable b cmds s).menu.sendFile = s.menu.sendFile ∧
    (remoteCommandsAvailable b cmds s).menu.smsapp = s.menu.smsapp ∧
    (remoteCommandsAvailable b cmds s).menu.menuAction
      = { s.menu.menuAction with visible := b } ∧
    (remoteCommandsAvailable b cmds s).menu.m_device = s.menu.m_device ∧
    (remoteCommandsAvailable b cmds s).menu.m_remoteCommandsInterface
      = s.menu.m_remoteCommandsInterface := by
  cases b <;> simp [remoteCommandsAvailable]

theorem remoteCommandsAvailable_entries (b : Bool) (cmds : QJsonDocument) (s : State) :
    (remoteCommandsAvailable b cmds s).menu.remoteCommandsMenu
      = s.menu.remoteCommandsMenu
          ++ (if b then cmds.toObject.map commandAction else []) := by
  cases b <;> simp [remoteCommandsAvailable, addCommandActions_eq]

theorem remoteCommandsAvailable_visibleOf (b : Bool) (cmds : QJsonDocument) (s : State)
    (item : MenuItem) :
    (remoteCommandsAvailable b cmds s).menu.visibleOf item
      = if item = .menuAction then some b else s.menu.visibleOf item := by
  obtain ⟨h1, h2, h3, h4, h5, h6, _, _⟩ := remoteCommandsAvailable_fields b cmds s
  cases item <;> simp [DeviceIndicator.visibleOf, h1, h2, h3, h4, h5, h6]

theorem remoteCommandsAvailable_textOf (b : Bool) (cmds : QJsonDocument) (s : State)
    (item : MenuItem) :
    (remoteCommandsAvailable b cmds s).menu.textOf item = s.menu.textOf item := by
  obtain ⟨h1, h2, h3, h4, h5, h6, _, _⟩ := remoteCommandsAvailable_fields b cmds s
  cases item <;> simp [DeviceIndicator.textOf, h1, h2, h3, h4, h5, h6]

theorem hasPluginReply_remotecommands (b : Bool) (cmds : QJsonDocument) (s : State) :
    hasPluginReply "kdeconnect_remotecommands" b cmds s = remoteCommandsAvailable b cmds s := by
  simp [hasPluginReply]

theorem hasPluginReply_visibleOf_governed (s : State) (item : MenuItem) (b : Bool)
    (cmds : QJsonDocument) (h : s.menu.visibleOf item ≠ none) :
    (hasPluginReply (governingPlugin item) b cmds s).menu.visibleOf item = some b := by
  cases item
  case smsapp =>
    cases hs : s.menu.smsapp with
    | none => simp [DeviceIndicator.visibleOf, hs] at h
    | some a => simp [governingPlugin, hasPluginReply, DeviceIndicator.visibleOf, hs]
  case menuAction =>
    simp [governingPlugin, hasPluginReply_remotecommands, remoteCommandsAvailable_visibleOf]
  all_goals
    simp [governingPlugin, hasPluginReply, DeviceIndicator.visibleOf]

theorem hasPluginReply_visibleOf_other (s : State) (item other : MenuItem) (b : Bool)
    (cmds : QJsonDocument) (h : other ≠ item) :
    (hasPluginReply (governingPlugin item) b cmds s).menu.visibleOf other
      = s.menu.visibleOf other := by
  cases item
  case smsapp =>
    cases hs : s.menu.smsapp <;> cases other <;>
      simp_all [governingPlugin, hasPluginReply, DeviceIndicator.visibleOf]
  case menuAction =>
    simp [governingPlugin, hasPluginReply_remotecommands, remoteCommandsAvailable_visibleOf, h]
  all_goals
    cases other <;>
      simp_all [governingPlugin, hasPluginReply, DeviceIndicator.visibleOf]

theorem hasPluginReply_textOf (s : State) (item other : MenuItem) (b : Bool)
    (cmds : QJsonDocument) :
    (hasPluginReply (governingPlugin item) b cmds s).menu.textOf other
      = s.menu.textOf other := by
  cases item
  case smsapp =>
    cases hs : s.menu.smsapp <;> cases other <;>
      simp_all [governingPlugin, hasPluginReply, DeviceIndicator.textOf]
  case menuAction =>
    simp [governingPlugin, hasPluginReply_remotecommands, remoteCommandsAvailable_textOf]
  all_goals
    cases other <;>
      simp_all [governingPlugin, hasPluginReply, DeviceIndicator.textOf]

theorem hasPluginReply_entries_grow (s : State) (item : MenuItem) (b : Bool)
    (cmds : QJsonDocument) :
    s.menu.remoteCommandsMenu
      <+: (hasPluginReply (governingPlugin item) b cmds s).menu.remoteCommandsMenu := by
  cases item
  case smsapp =>
    cases hs : s.menu.smsapp <;>
      simp [governingPlugin, hasPluginReply, hs]
  case menuAction =>
    simp [governingPlugin, hasPluginReply_remotecommands, remoteCommandsAvailable_entries]
  all_goals
    simp [governingPlugin, hasPluginReply]

theorem deliverAll_append (p : String) (es fs : List GateEvent) (s : State) :
    deliverAll p (es ++ fs) s = deliverAll p fs (deliverAll p es s) := by
  simp [deliverAll, List.foldl_append]

theorem deliverAll_exists (item : MenuItem) (events : List GateEvent) (s : State)
    (other : MenuItem) (h : s.menu.visibleOf other ≠ none) :
    (deliverAll (governingPlugin item) events s).menu.visibleOf other ≠ none := by
  induction events generalizing s with
  | nil => exact h
  | cons e es ih =>
    apply ih
    by_cases ho : other = item
    · subst ho
      rw [hasPluginReply_visibleOf_governed _ _ _ _ h]
      simp
    · rw [hasPluginReply_visibleOf_other _ _ _ _ _ ho]
      exact h

theorem create_menu_texts (device : DeviceDbusInterface) (smsExecutable : String) (b : Bus) :
    (DeviceIndicator.create device smsExecutable b).menu.textOf .battery = some "No Battery" ∧
    (DeviceIndicator.create device smsExecutable b).menu.textOf .browse
      = some "Browse device" ∧
    (DeviceIndicator.create device smsExecutable b).menu.textOf .findDevice
      = some "Ring device" ∧
    (DeviceIndicator.create device smsExecutable b).menu.textOf .sendFile
      = some "Send file" ∧
    (DeviceIndicator.create device smsExecutable b).menu.textOf .smsapp
      = (if smsExecutable.isEmpty then none else some "SMS Messages...") ∧
    (DeviceIndicator.create device smsExecutable b).menu.textOf .menuAction
      = some "Run command" := by
  have h1 : i18n "Browse device" [] = "Browse device" := by decide
  have h2 : i18n "Ring device" [] = "Ring device" := by decide
  have h3 : i18n "Send file" [] = "Send file" := by decide
  have h4 : i18n "SMS Messages..." [] = "SMS Messages..." := by decide
  have h5 : i18n "Run command" [] = "Run command" := by decide
  have h6 : (BatteryAction.create device
      (b.newProxy .RemoteCommandsDbusInterface device.id).2).1.text = "No Battery" := by
    rw [create_inSync, create_m_charge]
    exact batteryLabel_neg (-1) _ (by decide)
  cases hs : smsExecutable.isEmpty <;>
    simp [DeviceIndicator.create, DeviceIndicator.textOf, hs, h1, h2, h3, h4, h5, h6]

/-- C2: for each of the six gates, after a non-empty sequence of availability
events delivered to its callback, the governed action (which must exist: the
SMS action is created only when the SMS program is installed) has the
visibility of the last event. -/
theorem gate_visibility_last_event (s : State) (item : MenuItem) (events : List GateEvent)
    (hne : events ≠ []) (hex : s.menu.visibleOf item ≠ none) :
    (deliverAll (governingPlugin item) events s).menu.visibleOf item
      = some (events.getLast hne).available := by
  have hsplit : deliverAll (governingPlugin item) events s
      = deliverAll (governingPlugin item) [events.getLast hne]
          (deliverAll (governingPlugin item) events.dropLast s) := by
    rw [← deliverAll_append, List.dropLast_append_getLast hne]
  rw [hsplit]
  exact hasPluginReply_visibleOf_governed _ item _ _
    (deliverAll_exists item events.dropLast s item hex)

/-- Witness of C2: the SMS gate of a menu built with the SMS program
installed, closed then opened then closed. -/
theorem gate_visibility_last_event_witness :
    (deliverAll "kdeconnect_sms"
        [⟨false, .null⟩, ⟨true, .null⟩, ⟨false, .null⟩]
        (DeviceIndicator.create sampleDevice "/usr/bin/kdeconnect-sms" {})).menu.visibleOf
      .smsapp = some false :=
  gate_visibility_last_event (DeviceIndicator.create sampleDevice "/usr/bin/kdeconnect-sms" {})
    .smsapp [⟨false, .null⟩, ⟨true, .null⟩, ⟨false, .null⟩] (by simp) (by decide)

/-- C9: a reply for the plugin id that governs a menu action sets the
visibility of that action (when it exists) and of no other action, changes no
label and keeps the actions of the command submenu; when the governed action
does not exist (the SMS action without the SMS program) nothing changes. The
actions carry the labels "Browse device", "Ring device", "Send file", "SMS
Messages..." and "Run command" from construction. -/
theorem gate_wiring_frame (s : State) (item : MenuItem) (b : Bool) (cmds : QJsonDocument)
    (device : DeviceDbusInterface) (smsExecutable : String) (b0 : Bus) :
    (s.menu.visibleOf item ≠ none →
      (hasPluginReply (governingPlugin item) b cmds s).menu.visibleOf item = some b) ∧
    (s.menu.visibleOf item = none → hasPluginReply (governingPlugin item) b cmds s = s) ∧
    (∀ other, other ≠ item →
      (hasPluginReply (governingPlugin item) b cmds s).menu.visibleOf other
        = s.menu.visibleOf other) ∧
    (∀ other, (hasPluginReply (governingPlugin item) b cmds s).menu.textOf other
        = s.menu.textOf other) ∧
    s.menu.remoteCommandsMenu
      <+: (hasPluginReply (governingPlugin item) b cmds s).menu.remoteCommandsMenu ∧
    (DeviceIndicator.create device smsExecutable b0).menu.textOf .browse
      = some "Browse device" ∧
    (DeviceIndicator.create device smsExecutable b0).menu.textOf .findDevice
      = some "Ring device" ∧
    (DeviceIndicator.create device smsExecutable b0).menu.textOf .sendFile
      = some "Send file" ∧
    (DeviceIndicator.create device smsExecutable b0).menu.textOf .smsapp
      = (if smsExecutable.isEmpty then none else some "SMS Messages...") ∧
    (DeviceIndicator.create device smsExecutable b0).menu.textOf .menuAction
      = some "Run command" := by
  refine ⟨hasPluginReply_visibleOf_governed s item b cmds, ?_,
    fun other h => hasPluginReply_visibleOf_other s item other b cmds h,
    fun other => hasPluginReply_textOf s item other b cmds,
    hasPluginReply_entries_grow s item b cmds,
    (create_menu_texts device smsExecutable b0).2⟩
  intro hnone
  cases item
  case smsapp =>
    cases hs : s.menu.smsapp with
    | none => simp [governingPlugin, hasPluginReply, hs]
    | some a => simp [DeviceIndicator.visibleOf, hs] at hnone
  all_goals simp [DeviceIndicator.visibleOf] at hnone

/-- Witness of C9: the sftp reply `false` hides "Browse device". -/
theorem gate_wiring_frame_witness :
    (hasPluginReply "kdeconnect_sftp" false .null
        (DeviceIndicator.create sampleDevice "" {})).menu.visibleOf .browse = some false :=
  (gate_wiring_frame (DeviceIndicator.create sampleDevice "" {}) .browse false .null
    sampleDevice "" {}).1 (by decide)

/-! ## The command submenu -/

theorem deliverAll_cons (p : String) (e : GateEvent) (es : List GateEvent) (s : State) :
    deliverAll p (e :: es) s = deliverAll p es (hasPluginReply p e.available e.commands s) := by
  rfl

theorem deliverAll_remote (events : List GateEvent) (s : State) :
    (deliverAll "kdeconnect_remotecommands" events s).menu.m_remoteCommandsInterface
      = s.menu.m_remoteCommandsInterface := by
  induction events generalizing s with
  | nil => rfl
  | cons e es ih =>
    rw [deliverAll_cons, ih, hasPluginReply_remotecommands]
    exact (remoteCommandsAvailable_fields _ _ _).2.2.2.2.2.2.2

theorem deliverAll_entries (events : List GateEvent) (s : State) :
    (deliverAll "kdeconnect_remotecommands" events s).menu.remoteCommandsMenu
      = s.menu.remoteCommandsMenu ++ commandsAdded events := by
  induction events generalizing s with
  | nil => simp [deliverAll, commandsAdded]
  | cons e es ih =>
    rw [deliverAll_cons, ih, hasPluginReply_remotecommands, remoteCommandsAvailable_entries]
    simp [commandsAdded]

theorem commandsAdded_closed (events : List GateEvent)
    (h : ∀ e ∈ events, e.available = false) : commandsAdded events = [] := by
  induction events with
  | nil => rfl
  | cons e es ih =>
    have he : e.available = false := h e (List.mem_cons_self e es)
    simp [commandsAdded, he, ih (fun x hx => h x (List.mem_cons_of_mem e hx))]

theorem create_entries (device : DeviceDbusInterface) (smsExecutable : String) (b : Bus) :
    (DeviceIndicator.create device smsExecutable b).menu.remoteCommandsMenu
      = [{ text := "Add commands", icon := "list-add", triggered := .editCommands }] := by
  have h1 : i18n "Add commands" [] = "Add commands" := by decide
  cases hs : smsExecutable.isEmpty <;> simp [DeviceIndicator.create, hs, h1]

theorem recordName_label (v : QJsonValue) (name : String) (h : recordName v = some name) :
    (v.toObject.value "name").toQString = name := by
  cases v with
  | object members =>
    simp only [recordName] at h
    simp only [QJsonValue.toObject, QJsonObject.value]
    cases hf : members.find? (fun m => m.1 == "name") with
    | none => simp [hf] at h
    | some m =>
      obtain ⟨k, w⟩ := m
      cases w <;> simp_all [QJsonValue.toQString]
  | _ => simp [recordName] at h

theorem recordName_none_label (v : QJsonValue) (h : recordName v = none) :
    (v.toObject.value "name").toQString = "" := by
  cases v with
  | object members =>
    simp only [recordName] at h
    simp only [QJsonValue.toObject, QJsonObject.value]
    cases hf : members.find? (fun m => m.1 == "name") with
    | none => simp [QJsonValue.toQString]
    | some m =>
      obtain ⟨k, w⟩ := m
      cases w <;> simp_all [QJsonValue.toQString]
  | _ => simp [QJsonValue.toObject, QJsonObject.value, QJsonValue.toQString]

theorem triggerEntry_command (s : State) (i : Nat) (it : String × QJsonValue)
    (h : s.menu.remoteCommandsMenu.get? i = some (commandAction it)) :
    (triggerEntry i s).bus.calls
      = s.bus.calls ++ [.viaProxy s.menu.m_remoteCommandsInterface "triggerCommand" [it.1]] := by
  unfold triggerEntry
  rw [h]
  rfl

/-- C3: while only `available = false` was delivered the submenu holds the
single entry "Add commands"; after the first `available = true` with a
snapshot object of n members it holds 1 + n entries, the entry of a member
whose record has the string name `name` (position i + 1 for member i) is
labelled `name`, and triggering it adds exactly one call to the log,
`triggerCommand` with the key of the member. -/
theorem command_list_population (device : DeviceDbusInterface) (smsExecutable : String)
    (b0 : Bus) (closedEvents : List GateEvent)
    (hclosed : ∀ e ∈ closedEvents, e.available = false) (obj : QJsonObject) :
    (deliverAll "kdeconnect_remotecommands" closedEvents
        (DeviceIndicator.create device smsExecutable b0)).menu.remoteCommandsMenu.map
      QAction.text = ["Add commands"] ∧
    (deliverAll "kdeconnect_remotecommands" (closedEvents ++ [⟨true, .object obj⟩])
        (DeviceIndicator.create device smsExecutable b0)).menu.remoteCommandsMenu.length
      = 1 + obj.length ∧
    ∀ (i : Nat) (hi : i < obj.length) (name : String),
      recordName (obj.get ⟨i, hi⟩).2 = some name →
      ((deliverAll "kdeconnect_remotecommands" (closedEvents ++ [⟨true, .object obj⟩])
          (DeviceIndicator.create device smsExecutable b0)).menu.remoteCommandsMenu.get?
        (i + 1)).map QAction.text = some name ∧
      (triggerEntry (i + 1)
          (deliverAll "kdeconnect_remotecommands" (closedEvents ++ [⟨true, .object obj⟩])
            (DeviceIndicator.create device smsExecutable b0))).bus.calls
        = (deliverAll "kdeconnect_remotecommands" (closedEvents ++ [⟨true, .object obj⟩])
            (DeviceIndicator.create device smsExecutable b0)).bus.calls
          ++ [.viaProxy
                (deliverAll "kdeconnect_remotecommands" (closedEvents ++ [⟨true, .object obj⟩])
                  (DeviceIndicator.create device smsExecutable b0)).menu.m_remoteCommandsInterface
                "triggerCommand" [(obj.get ⟨i, hi⟩).1]] := by
  have hopen : (deliverAll "kdeconnect_remotecommands" (closedEvents ++ [⟨true, .object obj⟩])
      (DeviceIndicator.create device smsExecutable b0)).menu.remoteCommandsMenu
      = { text := "Add commands", icon := "list-add", triggered := .editCommands }
          :: obj.map commandAction := by
    rw [deliverAll_append, deliverAll_entries, deliverAll_entries,
      commandsAdded_closed _ hclosed, create_entries]
    simp [commandsAdded, QJsonDocument.toObject]
  refine ⟨?_, ?_, ?_⟩
  · rw [deliverAll_entries, commandsAdded_closed _ hclosed, create_entries]
    rfl
  · rw [hopen]
    simp [Nat.add_comm]
  · intro i hi name hname
    have hget : (deliverAll "kdeconnect_remotecommands" (closedEvents ++ [⟨true, .object obj⟩])
        (DeviceIndicator.create device smsExecutable b0)).menu.remoteCommandsMenu.get? (i + 1)
        = some (commandAction (obj.get ⟨i, hi⟩)) := by
      rw [hopen]
      simp [List.getElem?_eq_getElem hi]
    refine ⟨?_, triggerEntry_command _ _ _ hget⟩
    rw [hget]
    show some ((obj.get ⟨i, hi⟩).2.toObject.value "name").toQString = some name
    rw [recordName_label _ _ hname]

/-- Witness of C3, the example of the specification: the gate delivers
`false`, then `true` with the snapshot of key `k1` named "Say Hi"; the second
entry is labelled "Say Hi" and triggering it calls `triggerCommand("k1")` once
through the member proxy (address 0). -/
theorem command_list_population_witness :
    ((deliverAll "kdeconnect_remotecommands" [⟨false, sayHiSnapshot⟩, ⟨true, sayHiSnapshot⟩]
        (DeviceIndicator.create sampleDevice "" {})).menu.remoteCommandsMenu.get? 1).map
      QAction.text = some "Say Hi" ∧
    (triggerEntry 1
        (deliverAll "kdeconnect_remotecommands" [⟨false, sayHiSnapshot⟩, ⟨true, sayHiSnapshot⟩]
          (DeviceIndicator.create sampleDevice "" {}))).bus.calls
      = (deliverAll "kdeconnect_remotecommands" [⟨false, sayHiSnapshot⟩, ⟨true, sayHiSnapshot⟩]
          (DeviceIndicator.create sampleDevice "" {})).bus.calls
        ++ [.viaProxy 0 "triggerCommand" ["k1"]] :=
  (command_list_population sampleDevice "" {} [⟨false, sayHiSnapshot⟩] (by simp)
    [("k1", .object [("name", .string "Say Hi")])]).2.2 0 (by decide) "Say Hi" (by rfl)

/-- C6, as stated, fails: the gate opens with a snapshot of three members of
which only `k1` is well formed; the submenu then holds four entries, not two,
and the entries made for the malformed records `bad` and `nameless` carry an
empty label and trigger their keys. -/
theorem malformed_record_skipped_counterexample :
    wellFormedCount mixedSnapshot.toObject = 1 ∧
    (hasPluginReply "kdeconnect_remotecommands" true mixedSnapshot
        (DeviceIndicator.create sampleDevice "" {})).menu.remoteCommandsMenu.length = 4 ∧
    (hasPluginReply "kdeconnect_remotecommands" true mixedSnapshot
        (DeviceIndicator.create sampleDevice "" {})).menu.remoteCommandsMenu.length
      ≠ 1 + wellFormedCount mixedSnapshot.toObject ∧
    (hasPluginReply "kdeconnect_remotecommands" true mixedSnapshot
        (DeviceIndicator.create sampleDevice "" {})).menu.remoteCommandsMenu.map
      (fun a => (a.text, a.triggered))
      = [("Add commands", .editCommands), ("", .triggerCommand "bad"),
         ("Say Hi", .triggerCommand "k1"), ("", .triggerCommand "nameless")] := by
  decide

/-- C6 amended: when the gate opens, one entry is appended for every member of
the snapshot, well formed or not. The entry of a malformed record has the
empty label and triggers the key of the record; the entry of a well-formed
record has the name of the record and triggers its key. -/
theorem command_entry_per_member (s : State) (obj : QJsonObject) :
    (hasPluginReply "kdeconnect_remotecommands" true (.object obj) s).menu.remoteCommandsMenu
      = s.menu.remoteCommandsMenu ++ obj.map commandAction ∧
    (hasPluginReply "kdeconnect_remotecommands" true (.object obj) s).menu.remoteCommandsMenu.length
      = s.menu.remoteCommandsMenu.length + obj.length ∧
    (∀ it ∈ obj, recordName it.2 = none →
      commandAction it = { text := "", triggered := .triggerCommand it.1 }) ∧
    (∀ it ∈ obj, ∀ name, recordName it.2 = some name →
      commandAction it = { text := name, triggered := .triggerCommand it.1 }) := by
  have h : (hasPluginReply "kdeconnect_remotecommands" true (.object obj)
      s).menu.remoteCommandsMenu = s.menu.remoteCommandsMenu ++ obj.map commandAction := by
    rw [hasPluginReply_remotecommands, remoteCommandsAvailable_entries]
    simp [QJsonDocument.toObject]
  refine ⟨h, ?_, ?_, ?_⟩
  · rw [h]
    simp
  · intro it _ hnone
    simp [commandAction, recordName_none_label _ hnone]
  · intro it _ name hname
    simp [commandAction, recordName_label _ _ hname]

/-- Witness of C6 amended: the malformed record `bad` of the mixed snapshot
gets an entry with the empty label that triggers `bad`. -/
theorem command_entry_per_member_witness :
    commandAction ("bad", .double 5 0) = { text := "", triggered := .triggerCommand "bad" } :=
  (command_entry_per_member openedSample mixedSnapshot.toObject).2.2.1
    ("bad", .double 5 0) (List.mem_cons_self _ _) rfl

/-! ## One reply per capability call -/

/-- C4: when the file picker returns the empty URL the send-file handler
leaves the whole state as it was, so no call is issued; with a non-empty URL
it adds exactly the `shareUrl` message for the device to the log; the log
changes only when the URL is not empty. -/
theorem send_file_cancellation (s : State) (url : String) :
    (url = "" → Slot.run .sendFile url s = s) ∧
    (url ≠ "" →
      (Slot.run .sendFile url s).bus.calls
        = s.bus.calls ++
          [.message
            { service := "org.kde.kdeconnect",
              path := "/modules/kdeconnect/devices/" ++ s.menu.m_device.id ++ "/share",
              iface := "org.kde.kdeconnect.device.share",
              method := "shareUrl",
              arguments := [url] }]) ∧
    ((Slot.run .sendFile url s).bus.calls ≠ s.bus.calls → url ≠ "") := by
  refine ⟨?_, ?_, ?_⟩
  · intro h
    subst h
    rfl
  · intro h
    have he : url.isEmpty = false := by
      cases hq : url.isEmpty
      · rfl
      · exact absurd ((String.isEmpty_iff url).mp hq) h
    simp [Slot.run, sendFileTriggered, he, Bus.send]
  · intro h hurl
    subst hurl
    exact h rfl

/-- Witness of C4: the picker is cancelled on the sample menu. -/
theorem send_file_cancellation_witness :
    Slot.run .sendFile "" openedSample = openedSample :=
  (send_file_cancellation openedSample "").1 rfl

theorem fresh_of_newProxy (s : State) (h : s.bus.AtRest) (slot : Slot) (cls : ProxyClass)
    (method : String)
    (hrun : slot.run "" s =
      { s with bus :=
          (((s.bus.newProxy cls s.menu.m_device.id).2.call s.bus.nextAddr method []).deleteLater
            s.bus.nextAddr) }) :
    FreshProxyActivation slot s ∧ (activate slot "" s).bus.proxies = s.bus.proxies := by
  obtain ⟨hd, hlt⟩ := h
  have hne : ∀ q ∈ s.bus.proxies, q.addr ≠ s.bus.nextAddr := fun q hq =>
    Nat.ne_of_lt (hlt q hq)
  have hprox : (activate slot "" s).bus.proxies = s.bus.proxies := by
    simp only [activate, hrun, Bus.newProxy, Bus.call, Bus.deleteLater,
      Bus.processDeferredDeletes, hd, List.nil_append]
    rw [List.filter_append]
    have h1 : List.filter (fun p => !([s.bus.nextAddr].contains p.addr)) s.bus.proxies
        = s.bus.proxies := by
      rw [List.filter_eq_self]
      intro q hq
      simp [hne q hq]
    rw [h1]
    simp
  refine ⟨⟨s.bus.nextAddr, cls, method, [], hne, ?_, ?_, ?_⟩, hprox⟩
  · simp [hrun, Bus.newProxy, Bus.call, Bus.deleteLater]
  · simp [activate, hrun, Bus.newProxy, Bus.call, Bus.deleteLater, Bus.processDeferredDeletes]
  · rw [hprox]
    exact hne

theorem create_atRest (device : DeviceDbusInterface) (smsExecutable : String) (b : Bus)
    (h : b.AtRest) : (DeviceIndicator.create device smsExecutable b).bus.AtRest := by
  obtain ⟨hd, hlt⟩ := h
  have hprox : ∀ q ∈ b.proxies, q.addr < b.nextAddr + 1 + 1 := fun q hq =>
    Nat.lt_succ_of_lt (Nat.lt_succ_of_lt (hlt q hq))
  have hall : ∀ q : Proxy,
      q ∈ b.proxies ∨
        q = { addr := b.nextAddr, cls := .RemoteCommandsDbusInterface, deviceId := device.id } ∨
        q = { addr := b.nextAddr + 1, cls := .DeviceBatteryDbusInterface, deviceId := device.id } →
      q.addr < b.nextAddr + 1 + 1 := by
    intro q hq
    rcases hq with hq | hq | hq
    · exact hprox q hq
    · subst hq
      exact Nat.lt_succ_of_lt (Nat.lt_succ_self _)
    · subst hq
      exact Nat.lt_succ_self _
  cases hs : smsExecutable.isEmpty <;>
    simp [DeviceIndicator.create, BatteryAction.create, Bus.AtRest, Bus.newProxy, Bus.call, hs,
      hd] <;>
    exact hall

theorem activate_atRest (slot : Slot) (url : String) (s : State) (h : s.bus.AtRest) :
    (activate slot url s).bus.AtRest := by
  obtain ⟨hd, hlt⟩ := h
  have hlt1 : ∀ q ∈ s.bus.proxies, q.addr < s.bus.nextAddr + 1 := fun q hq =>
    Nat.lt_succ_of_lt (hlt q hq)
  refine ⟨rfl, ?_⟩
  intro q hq
  have hq1 : q ∈ (slot.run url s).bus.proxies := by
    simp only [activate, Bus.processDeferredDeletes] at hq
    exact (List.mem_filter.mp hq).1
  cases slot
  case sendFile =>
    cases hu : url.isEmpty <;>
      simp_all [activate, Slot.run, sendFileTriggered, Bus.send, Bus.processDeferredDeletes]
  case browse =>
    simp only [activate, Slot.run, browseTriggered, Bus.newProxy, Bus.call, Bus.deleteLater,
      Bus.processDeferredDeletes, List.mem_append, List.mem_singleton] at hq1 ⊢
    rcases hq1 with hq1 | hq1
    · exact hlt1 q hq1
    · subst hq1
      exact Nat.lt_succ_self _
  case findDevice =>
    simp only [activate, Slot.run, findDeviceTriggered, Bus.newProxy, Bus.call, Bus.deleteLater,
      Bus.processDeferredDeletes, List.mem_append, List.mem_singleton] at hq1 ⊢
    rcases hq1 with hq1 | hq1
    · exact hlt1 q hq1
    · subst hq1
      exact Nat.lt_succ_self _
  all_goals
    simp_all [activate, Slot.run, smsappTriggered, editCommandsTriggered, commandTriggered,
      Bus.call, Bus.startDetached, Bus.processDeferredDeletes]

/-- C7, as stated, fails for the command entries: on the sample menu the
activation of the entry of `k1` is not a fresh-proxy activation. Two
activations in a row both call through the proxy at address 0, which is the
member `m_remoteCommandsInterface` made by the constructor; that proxy is
alive before and after, and no proxy is created. -/
theorem fresh_proxy_per_activation_counterexample :
    ¬ FreshProxyActivation (.triggerCommand "k1") openedSample ∧
    (openedSample.menu.remoteCommandsMenu.get? 1).map QAction.triggered
      = some (.triggerCommand "k1") ∧
    (triggerEntry 1 (triggerEntry 1 openedSample)).bus.calls
      = openedSample.bus.calls
        ++ [.viaProxy 0 "triggerCommand" ["k1"], .viaProxy 0 "triggerCommand" ["k1"]] ∧
    openedSample.menu.m_remoteCommandsInterface = 0 ∧
    openedSample.bus.proxies
      = [⟨0, .RemoteCommandsDbusInterface, "a1b2c3"⟩, ⟨1, .DeviceBatteryDbusInterface, "a1b2c3"⟩] ∧
    (triggerEntry 1 (triggerEntry 1 openedSample)).bus.proxies = openedSample.bus.proxies ∧
    (triggerEntry 1 (triggerEntry 1 openedSample)).bus.nextAddr
      = openedSample.bus.nextAddr := by
  refine ⟨?_, by decide, by decide, by decide, by decide, by decide, by decide⟩
  rintro ⟨p, cls, method, arguments, hnew, -, hcalls, -⟩
  have hc : (activate (.triggerCommand "k1") "" openedSample).bus.calls
      = openedSample.bus.calls ++ [.viaProxy 0 "triggerCommand" ["k1"]] := by
    decide
  rw [hc] at hcalls
  have hp := List.append_cancel_left hcalls
  simp only [List.cons.injEq, BusCall.viaProxy.injEq, and_true] at hp
  have hlive : (⟨0, .RemoteCommandsDbusInterface, "a1b2c3"⟩ : Proxy) ∈ openedSample.bus.proxies := by
    decide
  exact hnew _ hlive hp.1

/-- C7 amended: in a state at rest, an activation of "Browse device" and one
of "Ring device" each create a proxy at a new address for the device id, make
exactly one call through it and release it, so that the live proxies are the
same as before. An activation of a command entry makes exactly one call,
`triggerCommand(key)`, through the member proxy `m_remoteCommandsInterface`,
creates no proxy and releases none; the constructor made that proxy and it
stays alive. -/
theorem proxy_per_activation (s : State) (h : s.bus.AtRest) (key : String)
    (device : DeviceDbusInterface) (smsExecutable : String) (b0 : Bus) :
    FreshProxyActivation .browse s ∧
    FreshProxyActivation .findDevice s ∧
    (activate .browse "" s).bus.proxies = s.bus.proxies ∧
    (activate .findDevice "" s).bus.proxies = s.bus.proxies ∧
    (activate (.triggerCommand key) "" s).bus.calls
      = s.bus.calls ++ [.viaProxy s.menu.m_remoteCommandsInterface "triggerCommand" [key]] ∧
    (activate (.triggerCommand key) "" s).bus.proxies = s.bus.proxies ∧
    (activate (.triggerCommand key) "" s).bus.nextAddr = s.bus.nextAddr ∧
    (activate (.triggerCommand key) "" s).menu.m_remoteCommandsInterface
      = s.menu.m_remoteCommandsInterface ∧
    (DeviceIndicator.create device smsExecutable b0).menu.m_remoteCommandsInterface
      = b0.nextAddr ∧
    (⟨b0.nextAddr, .RemoteCommandsDbusInterface, device.id⟩ : Proxy)
      ∈ (DeviceIndicator.create device smsExecutable b0).bus.proxies := by
  have hb := fresh_of_newProxy s h .browse .SftpDbusInterface "startBrowsing" rfl
  have hf := fresh_of_newProxy s h .findDevice .FindMyPhoneDeviceDbusInterface "ring" rfl
  refine ⟨hb.1, hf.1, hb.2, hf.2, rfl, ?_, rfl, rfl, ?_, ?_⟩
  · simp [activate, Slot.run, commandTriggered, Bus.call, Bus.processDeferredDeletes, h.1]
  · cases hs : smsExecutable.isEmpty <;> simp [DeviceIndicator.create, Bus.newProxy, hs]
  · cases hs : smsExecutable.isEmpty <;>
      simp [DeviceIndicator.create, BatteryAction.create, Bus.newProxy, Bus.call, hs]

/-- Witness of C7 amended: the sample menu with its command gate open is at
rest, and an activation of "Browse device" there leaves the live proxies as
they were. -/
theorem proxy_per_activation_witness :
    openedSample.bus.AtRest ∧
    (activate .browse "" openedSample).bus.proxies = openedSample.bus.proxies :=
  ⟨⟨by decide, by decide⟩,
   (proxy_per_activation openedSample ⟨by decide, by decide⟩ "k1" sampleDevice "" {}).2.2.1⟩

end KdeConnect
